import Mathlib

set_option maxRecDepth 4000

/-!
Verification development for the Air-Modernity V2 pipeline
(`scripts/03_generate_features.py`, `scripts/04_build_scores.py`,
`scripts/05_clustering.py`, `scripts/config.py`).

The pandas/sklearn code is shallowly embedded over `ℚ`:

* a CSV cell that may be missing (`NaN`) is an `Option`;
* `pd.to_numeric(..., errors="coerce")` is modelled by reading the
  `entry_year` cell as `Option ℚ` (`none` = missing or unparsable);
* `.astype("string").str.strip()` is `Option.map String.trim`;
* `groupby` keys are the distinct non-missing key values;
* library numerics that are not part of this repository (the seeded
  k-means++ initialisation, the seeded stratified split, the fitted
  standard scaler and the PCA solver of sklearn) enter as explicit
  parameters collected in `SeedDraw`, while Lloyd iteration, inertia,
  and the 5-nearest-neighbour majority vote are modelled from the spec.
-/

/-- One raw aircraft record as read from `fleet_enriched_v2.csv` by
`03_generate_features.py`.  `none` is a missing cell; `entry_year` is the
result of numeric coercion (`none` = missing or unparsable). -/
structure AircraftRecord where
  airline_name : Option String
  country : Option String
  region : Option String
  entry_year : Option ℚ
  aircraft_type : Option String
deriving DecidableEq

/-- Leading and trailing whitespace removal on a character list. -/
def stripChars (l : List Char) : List Char :=
  ((l.dropWhile Char.isWhitespace).reverse.dropWhile Char.isWhitespace).reverse

/-- Python's `str.strip()`: drop leading and trailing whitespace. -/
def strip (s : String) : String := ⟨stripChars s.data⟩

/-- Step 3 of `03_generate_features.py`: `.astype("string").str.strip()`
applied to the three text columns. -/
def trimRecord (r : AircraftRecord) : AircraftRecord :=
  { r with
    airline_name := r.airline_name.map strip
    country := r.country.map strip
    region := r.region.map strip }

/-- A text cell that is present and non-empty. -/
def presentB (o : Option String) : Bool :=
  match o with
  | some s => !(s == "")
  | none => false

/-- The row-drop performed by `03_generate_features.py` before grouping:
`dropna(subset=["entry_year"])` followed by the country/region presence
filter (step 4 and "Option A" of the script). -/
def surviveB (r : AircraftRecord) : Bool :=
  r.entry_year.isSome && presentB r.country && presentB r.region

/-- The rows that reach the `groupby` in `03_generate_features.py`:
trimmed, then filtered by `surviveB`. -/
def survivors (rows : List AircraftRecord) : List AircraftRecord :=
  (rows.map trimRecord).filter surviveB

/-- `clip(0, 1)` on a number that is present. -/
def clamp01 (q : ℚ) : ℚ := if q < 0 then 0 else if 1 < q then 1 else q

/-- One airline feature row of `airlines_features.csv`
(output of `03_generate_features.py`). -/
structure FeatureRow where
  airline_name : String
  country : String
  region : String
  fleet_size : ℕ
  avg_entry_year : ℚ
  modern_count_2015 : ℕ
  modern_count_2010 : ℕ
  pct_modern_2015 : ℚ
  pct_modern_2010 : ℚ
  modernity_index : ℚ
  diversity_score : ℕ
deriving DecidableEq

/-- Aggregation of one `groupby("airline_name")` group in
`03_generate_features.py` (steps 5-9 of the script): first country/region,
mean entry year, modern counts by the 2015/2010 thresholds, distinct
aircraft types (`hasType` says whether the `aircraft_type` column exists),
percentages over `fleet_size` (0 replaced by 1), and
`modernity_index = clip(pct_modern_2015 / 100, 0, 1)`. -/
def mkFeature (hasType : Bool) (key : String) (grp : List AircraftRecord) : FeatureRow :=
  let fleet := grp.length
  let entries := grp.filterMap (fun r => r.entry_year)
  let m15 := grp.countP (fun r => decide ((2015 : ℚ) ≤ r.entry_year.getD 0))
  let m10 := grp.countP (fun r => decide ((2010 : ℚ) ≤ r.entry_year.getD 0))
  let denom : ℚ := if fleet = 0 then 1 else (fleet : ℚ)
  let pct15 := ((m15 : ℚ) / denom) * 100
  let pct10 := ((m10 : ℚ) / denom) * 100
  { airline_name := key
    country := ((grp.filterMap (fun r => r.country)).headD "")
    region := ((grp.filterMap (fun r => r.region)).headD "")
    fleet_size := fleet
    avg_entry_year := entries.sum / (entries.length : ℚ)
    modern_count_2015 := m15
    modern_count_2010 := m10
    pct_modern_2015 := pct15
    pct_modern_2010 := pct10
    modernity_index := clamp01 (pct15 / 100)
    diversity_score := if hasType then (grp.filterMap (fun r => r.aircraft_type)).dedup.length else 0 }

/-- The aggregation core of `03_generate_features.py`: drop, group by the
(trimmed) `airline_name`, aggregate each group.  `hasType` records whether
an `aircraft_type`/`model_key` column is available for `diversity_score`. -/
def featuresMain (hasType : Bool) (rows : List AircraftRecord) : List FeatureRow :=
  let s := survivors rows
  let keys := (s.filterMap (fun r => r.airline_name)).dedup
  keys.map (fun k => mkFeature hasType k (s.filter (fun r => r.airline_name == some k)))

/-- The named error kinds of the pipeline's error-handling design. -/
inductive PipeErr where
  | missingInput
  | missingColumn (missing : List String)
  | emptyDataset
  | insufficientClassSupport
deriving DecidableEq

/-- Required columns checked by `03_generate_features.py`. -/
def requiredFeatureCols : List String := ["airline_name", "country", "region", "entry_year"]

/-- `03_generate_features.py` as a stage: `FileNotFoundError` when the
input file is absent, `ValueError` naming the missing columns, otherwise
the aggregation. -/
def featuresStage (inputExists : Bool) (cols : List String) (hasType : Bool)
    (rows : List AircraftRecord) : Except PipeErr (List FeatureRow) :=
  if !inputExists then .error .missingInput
  else
    let missing := requiredFeatureCols.filter (fun c => !(cols.contains c))
    if missing = [] then .ok (featuresMain hasType rows)
    else .error (.missingColumn missing)

/-- `MIN_FLEET_SIZE` from `scripts/config.py`. -/
def minFleetSize : ℚ := 5

/-- A row of the features CSV as read back by `04_build_scores.py`:
the numeric cells may be missing/unparsable (`none` = `NaN`). -/
structure CsvFeatureRow where
  airline_name : String
  fleet_size : Option ℚ
  diversity_score : Option ℚ
  modernity_index : Option ℚ
deriving DecidableEq

/-- The filter `df["fleet_size"] >= config.MIN_FLEET_SIZE`; a `NaN`
comparison is `False` in pandas. -/
def fleetOkB (r : CsvFeatureRow) : Bool :=
  match r.fleet_size with
  | some q => decide (minFleetSize ≤ q)
  | none => false

/-- A row of `airlines_scores.csv`: after `04_build_scores.py` the
`modernity_index` cell is always a number in `[0, 1]`. -/
structure ScoredRow where
  airline_name : String
  fleet_size : Option ℚ
  diversity_score : Option ℚ
  modernity_index : ℚ
deriving DecidableEq

/-- The clamp line of `04_build_scores.py`:
`pd.to_numeric(..., errors="coerce").fillna(0).clip(0, 1)`. -/
def clampRow (r : CsvFeatureRow) : ScoredRow :=
  { airline_name := r.airline_name
    fleet_size := r.fleet_size
    diversity_score := r.diversity_score
    modernity_index := clamp01 (r.modernity_index.getD 0) }

/-- The rows kept by the fleet-size filter of `04_build_scores.py`. -/
def scoresKept (rows : List CsvFeatureRow) : List CsvFeatureRow :=
  rows.filter fleetOkB

/-- The transformation core of `04_build_scores.py`: filter, then clamp. -/
def scoresMain (rows : List CsvFeatureRow) : List ScoredRow :=
  (scoresKept rows).map clampRow

/-- Required columns checked by `04_build_scores.py`. -/
def requiredScoreCols : List String := ["fleet_size", "modernity_index"]

/-- `04_build_scores.py` as a stage: raises `FileNotFoundError` when the
input file is absent, `ValueError` naming missing columns, otherwise
filters and clamps. -/
def scoresStage (inputExists : Bool) (cols : List String)
    (rows : List CsvFeatureRow) : Except PipeErr (List ScoredRow) :=
  if !inputExists then .error .missingInput
  else
    let missing := requiredScoreCols.filter (fun c => !(cols.contains c))
    if missing = [] then .ok (scoresMain rows)
    else .error (.missingColumn missing)

/-- A point of the 4-feature space
`(fleet_size, diversity_score, modernity_index, new_gen_share)`. -/
structure Vec4 where
  a : ℚ
  b : ℚ
  c : ℚ
  d : ℚ
deriving DecidableEq

def zeroVec : Vec4 := ⟨0, 0, 0, 0⟩

def vadd (v w : Vec4) : Vec4 := ⟨v.a + w.a, v.b + w.b, v.c + w.c, v.d + w.d⟩

def vscale (q : ℚ) (v : Vec4) : Vec4 := ⟨q * v.a, q * v.b, q * v.c, q * v.d⟩

/-- Squared Euclidean distance (distance comparisons are equivalent to
squared-distance comparisons, so no square root is needed). -/
def sqDist (v w : Vec4) : ℚ :=
  (v.a - w.a) * (v.a - w.a) + (v.b - w.b) * (v.b - w.b) +
    (v.c - w.c) * (v.c - w.c) + (v.d - w.d) * (v.d - w.d)

def vsum (l : List Vec4) : Vec4 := l.foldr vadd zeroVec

/-- Mean of a list of points (the empty list maps to the zero vector). -/
def centroid (l : List Vec4) : Vec4 := vscale (1 / (l.length : ℚ)) (vsum l)

/-- Modelled from the spec (§4.4, the sklearn KMeans assignment step is not
repository code): index of the nearest centroid by Euclidean distance,
ties resolved to the lower index. -/
def nearestIdx (cs : List Vec4) (x : Vec4) : ℕ :=
  (cs.enum.foldl
    (fun best jc => if sqDist x jc.2 < best.2 then (jc.1, sqDist x jc.2) else best)
    (0, sqDist x (cs.headD zeroVec))).1

/-- Modelled from the spec (§4.4): one Lloyd update — recompute every
centroid as the mean of the points assigned to it (a centroid with no
assigned point is kept unchanged). -/
def lloydStep (X : List Vec4) (cs : List Vec4) : List Vec4 :=
  cs.enum.map (fun jc =>
    let mem := X.filter (fun x => nearestIdx cs x == jc.1)
    if mem.isEmpty then jc.2 else centroid mem)

/-- Modelled from the spec (§4.4): Lloyd iteration to convergence or the
iteration cap. -/
def lloydIter : ℕ → List Vec4 → List Vec4 → List Vec4
  | 0, _, cs => cs
  | fuel + 1, X, cs =>
    let cs2 := lloydStep X cs
    if cs2 = cs then cs else lloydIter fuel X cs2

/-- Inertia: sum of squared distances from each point to its assigned
(nearest) centroid. -/
def inertiaOf (cs : List Vec4) (X : List Vec4) : ℚ :=
  (X.map (fun x => sqDist x (cs.getD (nearestIdx cs x) zeroVec))).sum

/-- Modelled from the spec (§4.4): the k-means fit — run Lloyd iteration
(`max_iter=300` in sklearn) from each seeded restart and keep the
lowest-inertia result (ties keep the earlier restart).  The seeded
k-means++ draws of the library are the explicit argument `inits`. -/
def kmeansBest (inits : List (List Vec4)) (k : ℕ) (X : List Vec4) : List Vec4 :=
  match inits.map (fun i => lloydIter 300 X i) with
  | [] => List.replicate k zeroVec
  | c :: rest =>
      rest.foldl (fun best c2 => if inertiaOf c2 X < inertiaOf best X then c2 else best) c

/-- The elbow loop of `05_clustering.py` (lines 88-94): for each
`k = 1..9` fit from that `k`'s seeded restarts and record the final
inertia, appending `k` and the inertia to two aligned lists. -/
def elbowSweep (inits : ℕ → List (List Vec4)) (X : List Vec4) : List ℕ × List ℚ :=
  let ks : List ℕ := [1, 2, 3, 4, 5, 6, 7, 8, 9]
  (ks, ks.map (fun k => inertiaOf (kmeansBest (inits k) k X) X))

/-- Stable insertion of a reference point into a list sorted by squared
distance to `x`. -/
def insertByDist (x : Vec4) (p : Vec4 × ℕ) : List (Vec4 × ℕ) → List (Vec4 × ℕ)
  | [] => [p]
  | q :: t =>
      if sqDist x p.1 ≤ sqDist x q.1 then p :: q :: t else q :: insertByDist x p t

/-- Stable sort of the reference points by distance to `x`. -/
def sortByDist (x : Vec4) (l : List (Vec4 × ℕ)) : List (Vec4 × ℕ) :=
  l.foldr (insertByDist x) []

/-- Modelled from the spec (§4.6): the 5 nearest labelled reference points
of the surrogate classifier (Euclidean distance in the standardized
feature space; distance ties keep the earlier reference point). -/
def knnNeighbors (refs : List (Vec4 × ℕ)) (x : Vec4) : List (Vec4 × ℕ) :=
  (sortByDist x refs).take 5

/-- The labels of the 5 nearest reference points. -/
def neighborLabels (refs : List (Vec4 × ℕ)) (x : Vec4) : List ℕ :=
  (knnNeighbors refs x).map Prod.snd

/-- Modelled from the spec (§4.6): majority vote — a label of maximal
multiplicity among the votes. -/
def majorityLabel (ls : List ℕ) : ℕ :=
  match ls.dedup.filter (fun l => ls.dedup.all (fun m => decide (ls.count m ≤ ls.count l))) with
  | [] => 0
  | c :: _ => c

/-- Modelled from the spec (§4.6): the surrogate classifier's prediction,
the majority label among the 5 nearest reference points. -/
def knnPredict (refs : List (Vec4 × ℕ)) (x : Vec4) : ℕ :=
  majorityLabel (neighborLabels refs x)

/-- One row of `airlines_clusters.csv`: the scored row plus the cluster id
and the two PCA coordinates. -/
structure ClusterRow where
  row : ScoredRow
  cluster : ℕ
  pca1 : ℚ
  pca2 : ℚ
deriving DecidableEq

/-- Everything `05_clustering.py` writes on a completed run: the enriched
table, the elbow record, the persisted classifier's reference data, and
the metrics record. -/
structure ClusterOut where
  table : List ClusterRow
  elbow_k : List ℕ
  elbow_inertia : List ℚ
  trainRefs : List (Vec4 × ℕ)
  accuracy : ℚ
  confusion : List (List ℕ)
deriving DecidableEq

/-- How a stage terminates: returning normally (with or without having
produced output) or raising a named error. -/
inductive Outcome (α : Type) where
  | normal (res : Option α)
  | raised (e : PipeErr)
deriving DecidableEq

/-- The seed-determined draws of the libraries used by
`05_clustering.py`, made explicit: the fitted standard scaler transform,
the k-means++ restart initialisations for each `k`, the stratified
80/20 split (as a per-row train membership mask), and the PCA projection.
Each is a deterministic function of the fixed seed (42) and the input;
they are parameters here because sklearn's internals are not repository
code. -/
structure SeedDraw where
  scaleF : Vec4 → Vec4
  inits : ℕ → List (List Vec4)
  mask : List Bool
  pcaF : List Vec4 → List (ℚ × ℚ)

/-- Required columns checked by `ensure_required_cols` in
`05_clustering.py`. -/
def requiredClusterCols : List String := ["fleet_size", "diversity_score", "modernity_index"]

/-- The safety re-filter of `05_clustering.py`
(`df[df["fleet_size"] >= config.MIN_FLEET_SIZE]`). -/
def fleetOkScoredB (r : ScoredRow) : Bool :=
  match r.fleet_size with
  | some q => decide (minFleetSize ≤ q)
  | none => false

/-- The raw 4-feature vector of a scored row after
`pd.to_numeric(...).fillna(0)`; the V2 scores file has no
`new_gen_share` column, so the script copies `modernity_index` into it. -/
def rawVec (r : ScoredRow) : Vec4 :=
  ⟨r.fleet_size.getD 0, r.diversity_score.getD 0, r.modernity_index, r.modernity_index⟩

/-- The rows of `pairs` whose train-mask entry equals `keep`
(rows beyond the mask count as test rows). -/
def selectMask (mask : List Bool) (keep : Bool) (pairs : List (Vec4 × ℕ)) : List (Vec4 × ℕ) :=
  pairs.enum.filterMap (fun ip => if mask.getD ip.1 false == keep then some ip.2 else none)

/-- `accuracy_score(y_test, y_pred)` for the 5-NN classifier trained on
the train split. -/
def accuracyOf (train test : List (Vec4 × ℕ)) : ℚ :=
  ((test.countP (fun p => knnPredict train p.1 == p.2) : ℕ) : ℚ) / (test.length : ℚ)

/-- Ordered insertion of a natural number. -/
def insertNat (n : ℕ) : List ℕ → List ℕ
  | [] => [n]
  | m :: t => if n ≤ m then n :: m :: t else m :: insertNat n t

/-- Insertion sort of a list of natural numbers. -/
def sortNat (l : List ℕ) : List ℕ := l.foldr insertNat []

/-- `confusion_matrix(y_test, y_pred)`: rows and columns indexed by the
sorted distinct labels present in the evaluation split. -/
def confusionOf (train test : List (Vec4 × ℕ)) : List (List ℕ) :=
  let preds := test.map (fun p => knnPredict train p.1)
  let pairs := (test.map Prod.snd).zip preds
  let labs := sortNat ((test.map Prod.snd) ++ preds).dedup
  labs.map (fun t => labs.map (fun q => pairs.countP (fun pr => pr == (t, q))))

/-- `run` of `05_clustering.py`: when the scores file is absent it prints
a message and RETURNS NORMALLY (lines 54-57); a missing required column
raises; otherwise it re-filters by fleet size and, on whatever remains
(with no emptiness check), fits k-means, sweeps the elbow, splits,
trains and evaluates the 5-NN surrogate, projects, and assembles the
outputs. -/
def clusteringRun (inputExists : Bool) (cols : List String) (sd : SeedDraw)
    (rows : List ScoredRow) : Outcome ClusterOut :=
  if !inputExists then .normal none
  else
    let missing := requiredClusterCols.filter (fun c => !(cols.contains c))
    if missing = [] then
      let clean := rows.filter fleetOkScoredB
      let X := clean.map (fun r => sd.scaleF (rawVec r))
      let cs := kmeansBest (sd.inits 4) 4 X
      let labels := X.map (nearestIdx cs)
      let elb := elbowSweep sd.inits X
      let pairs := X.zip labels
      let train := selectMask sd.mask true pairs
      let test := selectMask sd.mask false pairs
      let pca := sd.pcaF X
      let table := clean.enum.map (fun ir =>
        { row := ir.2, cluster := labels.getD ir.1 0,
          pca1 := (pca.getD ir.1 (0, 0)).1, pca2 := (pca.getD ir.1 (0, 0)).2 : ClusterRow })
      .normal (some
        { table := table, elbow_k := elb.1, elbow_inertia := elb.2,
          trainRefs := train, accuracy := accuracyOf train test,
          confusion := confusionOf train test })
    else .raised (.missingColumn missing)

/-- Column mean of the feature matrix (`StandardScaler.mean_`). -/
def colMean (f : Vec4 → ℚ) (X : List Vec4) : ℚ :=
  (X.map f).sum / (X.length : ℚ)

/-- Column population variance of the feature matrix (the square of
`StandardScaler.scale_` for a non-constant column; a zero-variance
column gets scale 1 in sklearn). -/
def colVar (f : Vec4 → ℚ) (X : List Vec4) : ℚ :=
  (X.map (fun v => (f v - colMean f X) * (f v - colMean f X))).sum / (X.length : ℚ)

/-- The standard-scaler transform `(x - mean) / scale`, column by
column, with the fitted mean vector `mu` and scale vector `s`. -/
def standardizeWith (mu s : Vec4) (v : Vec4) : Vec4 :=
  ⟨(v.a - mu.a) / s.a, (v.b - mu.b) / s.b, (v.c - mu.c) / s.c, (v.d - mu.d) / s.d⟩

/-- A scored row carrying its position in feature space in
`diversity_score`. -/
def mkScored (name : String) (d : ℚ) : ScoredRow := ⟨name, some 100, some d, 0⟩

/-- The 17 `diversity_score` values of the round-trip counterexample:
four well-separated groups (3 + 6 + 4 + 4 rows), with overall mean 0 and
population variance exactly 1, so the fitted standardization of that
column is the identity. -/
def knnVals : List ℚ :=
  [-6/5, -23/20, -11/10,
   -4/5, -3/4, -7/10, -13/20, -3/5, -11/20,
   1/4, 3/10, 7/20, 2/5,
   13/10, 27/20, 7/4, 9/5]

/-- Row names matching `knnVals` position by position. -/
def knnNames : List String :=
  ["a0", "a1", "a2", "b0", "b1", "b2", "b3", "b4", "b5",
   "c0", "c1", "c2", "c3", "d0", "d1", "d2", "d3"]

/-- 17 scored rows: `fleet_size` is the constant 100 (every row passes
the fleet filter), `modernity_index` the constant 0, and
`diversity_score` carries the `knnVals` positions: a tight 3-row group
next to a 6-row group, and two far 4-row groups. -/
def knnRows : List ScoredRow :=
  (knnNames.zip knnVals).map (fun p => mkScored p.1 p.2)

/-- The raw feature matrix of the `knnRows` run (all rows survive the
fleet filter), on which the Scaler is fitted. -/
def knnX : List Vec4 := knnRows.map rawVec

/-- A point of the standardized matrix: the constant columns are centred
to 0 and the `diversity_score` column (mean 0, variance 1) is
unchanged. -/
def spt (q : ℚ) : Vec4 := ⟨0, q, 0, 0⟩

/-- A stratified 13/4 train/test mask for `knnRows`: one test row per
cluster (indices 0, 8, 12, 16; 4 = ceil(0.2 * 17) test rows). -/
def knnMask : List Bool :=
  [false, true, true, true, true, true, true, true, false,
   true, true, true, false, true, true, true, false]

/-- Ten `k = 4` restart initialisations for the standardized `knnRows`
matrix, matching the hard-coded `n_init=10` of `05_clustering.py`.
Each is a k-means++-style draw — four distinct data points of the
standardized matrix, one in each of the four separated groups — and
every one of them converges under Lloyd iteration to the natural
4-group partition, so the kept lowest-inertia result is that
partition whichever restart wins. -/
def knnQuads : List (List Vec4) :=
  [[spt (-6/5), spt (-4/5), spt (1/4), spt (13/10)],
   [spt (-23/20), spt (-3/4), spt (3/10), spt (27/20)],
   [spt (-11/10), spt (-7/10), spt (7/20), spt (7/4)],
   [spt (-6/5), spt (-13/20), spt (2/5), spt (9/5)],
   [spt (-23/20), spt (-3/5), spt (1/4), spt (13/10)],
   [spt (-11/10), spt (-11/20), spt (3/10), spt (27/20)],
   [spt (-6/5), spt (-4/5), spt (7/20), spt (7/4)],
   [spt (-23/20), spt (-3/4), spt (2/5), spt (9/5)],
   [spt (-11/10), spt (-7/10), spt (1/4), spt (13/10)],
   [spt (-6/5), spt (-13/20), spt (3/10), spt (27/20)]]

/-- Ten restarts for every `k` (`n_init=10` in the code): the
one-per-group draws for the production fit `k = 4`, and ten data-point
draws for the other `k` of the elbow sweep. -/
def knnInits (k : ℕ) : List (List Vec4) :=
  if k = 4 then knnQuads else List.replicate 10 ((knnVals.map spt).take k)

/-- Seed draws for the round-trip counterexample run: the Scaler draw is
the spec 4.3 standardization actually determined by the input matrix
`knnX` (per-column means `(100, 0, 0, 0)`, scales `(1, 1, 1, 1)` — the
three constant columns have variance 0 and scale 1, the
`diversity_score` column has mean 0 and variance exactly 1; both facts
are proved in the counterexample), and the k-means draws are ten
restarts per fit. -/
def knnDraw : SeedDraw :=
  ⟨standardizeWith ⟨100, 0, 0, 0⟩ ⟨1, 1, 1, 1⟩, knnInits, knnMask, fun _ => []⟩

/-- The clustering stage run on `knnRows`. -/
def knnRun : Outcome ClusterOut := clusteringRun true requiredClusterCols knnDraw knnRows

/-- The clusters table of a completed run (empty when the run did not
complete). -/
def outTable (o : Outcome ClusterOut) : List ClusterRow :=
  match o with
  | .normal (some t) => t.table
  | _ => []

/-- The persisted classifier's reference data of a completed run. -/
def outRefs (o : Outcome ClusterOut) : List (Vec4 × ℕ) :=
  match o with
  | .normal (some t) => t.trainRefs
  | _ => []

/-- Seed draws for degenerate runs (no restarts, empty mask). -/
def smallDraw : SeedDraw := ⟨id, fun _ => [], [], fun _ => []⟩

/-- The claim's row filter as worded in the spec ("the number of input
rows ... that survive the region/entry_year drop"), for comparison with
the drop the code actually performs (`surviveB`, which also requires a
non-missing, non-empty country). -/
def survivesRegionEntryB (r : AircraftRecord) : Bool :=
  r.entry_year.isSome && presentB r.region

/-- A placeholder feature row (used only as a `getD` default). -/
def dummyFeature : FeatureRow := mkFeature true "" []

/-- A scored row whose fleet is below the threshold: after the fleet
filter in the clustering stage nothing remains. -/
def lowRow : ScoredRow := ⟨"Tiny", some 1, some 1, 1⟩

/-- Input rows for the fleet-count claim: two aircraft of airline `X`,
the second with a valid region and entry year but no country. -/
def c8row1 : AircraftRecord := ⟨some "X", some "FR", some "Europe", some 2020, none⟩

/-- Second aircraft of airline `X`: region and entry year valid, country
missing. -/
def c8row2 : AircraftRecord := ⟨some "X", none, some "Europe", some 2000, none⟩

/-- The single feature row produced from `[c8row1, c8row2]`. -/
def c8f : FeatureRow := (featuresMain true [c8row1, c8row2]).getD 0 dummyFeature

/-- Two aircraft whose airline names differ by leading whitespace only. -/
def c9row1 : AircraftRecord := ⟨some "A", some "FR", some "Europe", some 2016, none⟩

/-- Same airline as `c9row1` up to whitespace, a different raw string. -/
def c9row2 : AircraftRecord := ⟨some " A", some "FR", some "Europe", some 2000, none⟩

/-- An aircraft row with a valid region and entry year but no country. -/
def c10row : AircraftRecord := ⟨some "Solo", none, some "Asia", some 2018, none⟩

/-- A fully valid aircraft row. -/
def wFeatRow : AircraftRecord := ⟨some "W", some "FR", some "Europe", some 2016, some "A320"⟩

/-- The feature row produced from `[wFeatRow]`. -/
def wF : FeatureRow := (featuresMain true [wFeatRow]).getD 0 dummyFeature

/-- A features-file row whose modernity index reads 120%. -/
def wCsv : CsvFeatureRow := ⟨"G", some 7, some 2, some (6/5)⟩

/-- The scored row obtained from `wCsv`. -/
def wS : ScoredRow := clampRow wCsv

/-- The completed output of the `knnRows` run. -/
def knnOutVal : ClusterOut :=
  match knnRun with
  | .normal (some t) => t
  | _ => ⟨[], [], [], [], 0, []⟩

/-- The clusters-table row of the training row `a2` in the `knnRows`
run. -/
def crW : ClusterRow := (outTable knnRun).getD 2 ⟨mkScored "" 0, 99, 0, 0⟩


theorem clamp01_nonneg (q : ℚ) : 0 ≤ clamp01 q := by
  unfold clamp01
  split
  · exact le_refl 0
  · split
    · exact zero_le_one
    · linarith [not_lt.mp (by assumption : ¬ q < 0)]

theorem clamp01_le_one (q : ℚ) : clamp01 q ≤ 1 := by
  unfold clamp01
  split
  · exact zero_le_one
  · split
    · exact le_refl 1
    · exact le_of_not_lt (by assumption)

theorem clamp01_of_gt_one (q : ℚ) (h : 1 < q) : clamp01 q = 1 := by
  unfold clamp01
  rw [if_neg (by linarith), if_pos h]

/-- C1 amended: the clustering stage performs no emptiness check at all —
no run, on any input, ever terminates with `EmptyDatasetError`; whatever
survives the fleet filter (even nothing) is handed to the 4-cluster
fit. -/
theorem clustering_never_raises_empty (ex : Bool) (cols : List String)
    (sd : SeedDraw) (rows : List ScoredRow) :
    clusteringRun ex cols sd rows ≠ Outcome.raised PipeErr.emptyDataset := by
  simp only [clusteringRun]
  split
  · simp
  · split
    · simp
    · simp

/-- C1 amended, applied at a concrete input. -/
theorem clustering_never_raises_empty_w :
    clusteringRun true requiredClusterCols smallDraw [lowRow] ≠
      Outcome.raised PipeErr.emptyDataset :=
  clustering_never_raises_empty true requiredClusterCols smallDraw [lowRow]

/-- C4: `MIN_FLEET_SIZE` is 5; a row is kept by the filter of
`04_build_scores.py` iff it is an input row whose `fleet_size` cell holds
a number that is at least `MIN_FLEET_SIZE`; and the scores table consists
of exactly the clamped versions of the kept rows (no sentinel rows). -/
theorem scores_filter_iff :
    minFleetSize = 5 ∧
    (∀ rows r, r ∈ scoresKept rows ↔
      (r ∈ rows ∧ ∃ q, r.fleet_size = some q ∧ minFleetSize ≤ q)) ∧
    (∀ rows s, s ∈ scoresMain rows ↔ ∃ r, r ∈ scoresKept rows ∧ s = clampRow r) := by
  refine ⟨rfl, ?_, ?_⟩
  · intro rows r
    rw [scoresKept, List.mem_filter]
    constructor
    · rintro ⟨hmem, hok⟩
      refine ⟨hmem, ?_⟩
      unfold fleetOkB at hok
      rcases hq : r.fleet_size with _ | q
      · rw [hq] at hok; cases hok
      · rw [hq] at hok; exact ⟨q, rfl, of_decide_eq_true hok⟩
    · rintro ⟨hmem, q, hq, hge⟩
      refine ⟨hmem, ?_⟩
      unfold fleetOkB
      rw [hq]
      exact decide_eq_true hge
  · intro rows s
    rw [scoresMain, List.mem_map]
    constructor
    · rintro ⟨r, hr, rfl⟩; exact ⟨r, hr, rfl⟩
    · rintro ⟨r, hr, rfl⟩; exact ⟨r, hr, rfl⟩

/-- C7 amended: the feature stage (03) and the scores stage (04) do raise
a missing-input error when their input file is absent, but the clustering
stage (05) returns normally without output. -/
theorem missing_input_behaviour :
    (∀ cols ht rows, featuresStage false cols ht rows = Except.error PipeErr.missingInput) ∧
    (∀ cols rows, scoresStage false cols rows = Except.error PipeErr.missingInput) ∧
    (∀ cols sd rows, clusteringRun false cols sd rows = Outcome.normal none) :=
  ⟨fun _ _ _ => rfl, fun _ _ => rfl, fun _ _ _ => rfl⟩

/-- C6: the clustering stage is deterministic — two runs on equal input
tables with the same seed draws (the seed fixes the scaler fit, the
k-means++ restarts, the split and the PCA solve) produce equal clusters
tables, elbow records and classifier metrics. -/
theorem clustering_deterministic (ex : Bool) (cols : List String) (sd : SeedDraw)
    (rows1 rows2 : List ScoredRow) (h : rows1 = rows2) :
    clusteringRun ex cols sd rows1 = clusteringRun ex cols sd rows2 := by
  rw [h]

/-- C6, applied to a concrete run. -/
theorem clustering_deterministic_w :
    clusteringRun true requiredClusterCols knnDraw knnRows =
      clusteringRun true requiredClusterCols knnDraw knnRows :=
  clustering_deterministic true requiredClusterCols knnDraw knnRows knnRows rfl

/-- C10: a row whose country is missing (or empty after stripping) is
dropped before aggregation: prepending it to any input leaves the
feature table unchanged, so it contributes to no airline's `fleet_size`
or other statistics. -/
theorem country_drop (hasType : Bool) (r : AircraftRecord) (rows : List AircraftRecord)
    (h : (trimRecord r).country = none ∨ (trimRecord r).country = some "") :
    featuresMain hasType (r :: rows) = featuresMain hasType rows := by
  have hs : surviveB (trimRecord r) = false := by
    rcases h with h | h <;> simp [surviveB, presentB, h]
  simp [featuresMain, survivors, List.filter_cons, hs]

/-- C10, applied to a concrete country-less row. -/
theorem country_drop_w :
    featuresMain true [c10row, c9row1] = featuresMain true [c9row1] :=
  country_drop true c10row [c9row1] (by decide)

/-- C3: (i) every feature row's `modernity_index` lies in `[0, 1]`;
(ii) every scores row's `modernity_index` lies in `[0, 1]`;
(iii) a supplied value above 1 (e.g. 120%) is clamped to exactly 1.0 by
the scores stage; (iv) every clusters-table row carries a row of the
scores input unchanged, so no other value of `modernity_index` can enter
the clusters table. -/
theorem modernity_bounds :
    (∀ hasType rows f, f ∈ featuresMain hasType rows →
      0 ≤ f.modernity_index ∧ f.modernity_index ≤ 1) ∧
    (∀ rows s, s ∈ scoresMain rows → 0 ≤ s.modernity_index ∧ s.modernity_index ≤ 1) ∧
    (∀ r : CsvFeatureRow, 1 < r.modernity_index.getD 0 → (clampRow r).modernity_index = 1) ∧
    (∀ ex cols sd rows out cr, clusteringRun ex cols sd rows = Outcome.normal (some out) →
      cr ∈ out.table → cr.row ∈ rows) := by
  refine ⟨?_, ?_, ?_, ?_⟩
  · intro ht rows f hf
    simp only [featuresMain, List.mem_map] at hf
    obtain ⟨k, hk, rfl⟩ := hf
    exact ⟨clamp01_nonneg _, clamp01_le_one _⟩
  · intro rows s hs
    simp only [scoresMain, List.mem_map] at hs
    obtain ⟨r, hr, rfl⟩ := hs
    exact ⟨clamp01_nonneg _, clamp01_le_one _⟩
  · intro r h
    exact clamp01_of_gt_one _ h
  · intro ex cols sd rows out cr hrun hcr
    simp only [clusteringRun] at hrun
    split at hrun
    · exact absurd hrun (by simp)
    · split at hrun
      · simp only [Outcome.normal.injEq, Option.some.injEq] at hrun
        subst hrun
        simp only [List.mem_map] at hcr
        obtain ⟨ip, hip, rfl⟩ := hcr
        have h2 : ip.2 ∈ rows.filter fleetOkScoredB :=
          List.getElem?_mem (List.mem_enum_iff_getElem?.mp hip)
        exact (List.mem_filter.mp h2).1
      · exact absurd hrun (by simp)

/-- C8 amended: `fleet_size` of a feature row equals the number of input
rows whose trimmed airline name matches and which survive the full drop —
numeric entry year present AND non-missing, non-empty country AND
non-missing, non-empty region. -/
theorem fleet_size_counts (hasType : Bool) (rows : List AircraftRecord) (f : FeatureRow)
    (hf : f ∈ featuresMain hasType rows) :
    f.fleet_size = rows.countP
      (fun r => surviveB (trimRecord r) &&
        ((trimRecord r).airline_name == some f.airline_name)) := by
  simp only [featuresMain, List.mem_map] at hf
  obtain ⟨k, hk, rfl⟩ := hf
  show ((survivors rows).filter (fun r => r.airline_name == some k)).length =
    rows.countP (fun r => surviveB (trimRecord r) &&
      ((trimRecord r).airline_name == some k))
  rw [survivors, List.filter_filter, ← List.countP_eq_length_filter, List.countP_map]
  congr 1
  funext r
  exact Bool.and_comm _ _

/-- C9 amended: two surviving input rows feed the same feature row iff
their airline names are equal after whitespace stripping. -/
theorem grouping_key_trimmed (hasType : Bool) (rows : List AircraftRecord)
    (r1 r2 : AircraftRecord) (hm1 : r1 ∈ rows) (_hm2 : r2 ∈ rows)
    (hs1 : surviveB (trimRecord r1) = true) (_hs2 : surviveB (trimRecord r2) = true)
    (hn : (trimRecord r1).airline_name ≠ none) :
    ((trimRecord r1).airline_name = (trimRecord r2).airline_name ↔
      ∃ f ∈ featuresMain hasType rows,
        some f.airline_name = (trimRecord r1).airline_name ∧
        some f.airline_name = (trimRecord r2).airline_name) := by
  constructor
  · intro heq
    obtain ⟨k, hk⟩ := Option.ne_none_iff_exists'.mp hn
    have hmem : trimRecord r1 ∈ survivors rows :=
      List.mem_filter.mpr ⟨List.mem_map_of_mem trimRecord hm1, hs1⟩
    have hkey : k ∈ (survivors rows).filterMap (fun r => r.airline_name) :=
      List.mem_filterMap.mpr ⟨trimRecord r1, hmem, hk⟩
    have hkd : k ∈ ((survivors rows).filterMap (fun r => r.airline_name)).dedup :=
      List.mem_dedup.mpr hkey
    refine ⟨mkFeature hasType k
      ((survivors rows).filter (fun r => r.airline_name == some k)), ?_, ?_, ?_⟩
    · simp only [featuresMain, List.mem_map]
      exact ⟨k, hkd, rfl⟩
    · show some k = (trimRecord r1).airline_name
      rw [hk]
    · show some k = (trimRecord r2).airline_name
      rw [← heq, hk]
  · rintro ⟨f, hf, hf1, hf2⟩
    rw [← hf1, ← hf2]

/-- C9 amended, applied to the concrete whitespace pair. -/
theorem grouping_key_trimmed_w :
    ((trimRecord c9row1).airline_name = (trimRecord c9row2).airline_name ↔
      ∃ f ∈ featuresMain true [c9row1, c9row2],
        some f.airline_name = (trimRecord c9row1).airline_name ∧
        some f.airline_name = (trimRecord c9row2).airline_name) :=
  grouping_key_trimmed true [c9row1, c9row2] c9row1 c9row2
    (by decide) (by decide) (by decide) (by decide) (by decide)

theorem majorityLabel_eq_of_strict (ls : List ℕ) (L : ℕ) (h1 : L ∈ ls)
    (h2 : ∀ m ∈ ls, m ≠ L → ls.count m < ls.count L) :
    majorityLabel ls = L := by
  have hLd : L ∈ ls.dedup := List.mem_dedup.mpr h1
  have hLf : L ∈ ls.dedup.filter
      (fun l => ls.dedup.all (fun m => decide (ls.count m ≤ ls.count l))) := by
    refine List.mem_filter.mpr ⟨hLd, ?_⟩
    rw [List.all_eq_true]
    intro m hm
    rcases eq_or_ne m L with rfl | hmL
    · simp
    · exact decide_eq_true (le_of_lt (h2 m (List.mem_dedup.mp hm) hmL))
  unfold majorityLabel
  rcases hmatch : ls.dedup.filter
      (fun l => ls.dedup.all (fun m => decide (ls.count m ≤ ls.count l))) with _ | ⟨c, t⟩
  · rw [hmatch] at hLf
    cases hLf
  · show c = L
    have hcf : c ∈ ls.dedup.filter
        (fun l => ls.dedup.all (fun m => decide (ls.count m ≤ ls.count l))) := by
      rw [hmatch]; exact List.mem_cons_self c t
    obtain ⟨hcd, hall⟩ := List.mem_filter.mp hcf
    rw [List.all_eq_true] at hall
    rcases eq_or_ne c L with rfl | hcL
    · rfl
    · have hlt := h2 c (List.mem_dedup.mp hcd) hcL
      have hle : ls.count L ≤ ls.count c := of_decide_eq_true (hall L hLd)
      exact absurd hlt (not_lt.mpr hle)

/-- C2 amended: feeding a vector through the surrogate returns a label
`L` whenever `L` has strictly more representatives among the vector's 5
nearest training rows than any other label; so a fed-back row reproduces
its recorded cluster id whenever that id holds such a strict plurality —
without one the round trip is not guaranteed (the counterexample's exact
training row is predicted into a different cluster). -/
theorem surrogate_majority (refs : List (Vec4 × ℕ)) (x : Vec4) (L : ℕ)
    (h1 : L ∈ neighborLabels refs x)
    (h2 : ∀ m ∈ neighborLabels refs x, m ≠ L →
      (neighborLabels refs x).count m < (neighborLabels refs x).count L) :
    knnPredict refs x = L :=
  majorityLabel_eq_of_strict (neighborLabels refs x) L h1 h2

section

attribute [local semireducible] Rat.add Rat.mul Rat.sub Rat.inv Rat.ofScientific

example : featuresMain true
    [⟨some "A", some "FR", some "Europe", some 2016, some "A320"⟩,
     ⟨some "A", some "FR", some "Europe", some 2000, some "A330"⟩] =
    [{ airline_name := "A", country := "FR", region := "Europe", fleet_size := 2,
       avg_entry_year := 2008, modern_count_2015 := 1, modern_count_2010 := 1,
       pct_modern_2015 := 50, pct_modern_2010 := 50, modernity_index := 1/2,
       diversity_score := 2 }] := by decide

example : scoresMain [⟨"A", some 7, some 2, some (6/5)⟩, ⟨"B", some 3, some 1, some (1/2)⟩] =
    [⟨"A", some 7, some 2, 1⟩] := by decide

/-- C1 counterexample: on a table that is empty after the fleet filter
(one row with `fleet_size = 1`), the clustering stage neither raises
`EmptyDatasetError` nor stops early: it completes normally with output,
contradicting the claim that an explicit `EmptyDatasetError` is raised
before fitting the 4-cluster model. -/
theorem clustering_no_empty_check_cex :
    [lowRow].filter fleetOkScoredB = [] ∧
    (decide (clusteringRun true requiredClusterCols smallDraw [lowRow] =
      Outcome.raised PipeErr.emptyDataset)) = false ∧
    (decide (clusteringRun true requiredClusterCols smallDraw [lowRow] =
      Outcome.normal none)) = false := by
  exact ⟨by decide, by decide, by decide⟩

/-- C7 counterexample: with the scores file absent, the clustering stage
returns normally (printing a message), instead of raising a named
error — contradicting "every pipeline stage, when its input table file is
absent, fails fast by raising". -/
theorem clustering_missing_input_cex :
    clusteringRun false requiredClusterCols smallDraw [lowRow] = Outcome.normal none := by
  decide

/-- C3, applied at concrete inputs: a valid aircraft row, a 120% scores
cell, and the `a2` row of the clustered `knnRows` run. -/
theorem modernity_bounds_w :
    (0 ≤ wF.modernity_index ∧ wF.modernity_index ≤ 1) ∧
    (0 ≤ wS.modernity_index ∧ wS.modernity_index ≤ 1) ∧
    (clampRow wCsv).modernity_index = 1 ∧
    crW.row ∈ knnRows :=
  ⟨modernity_bounds.1 true [wFeatRow] wF (by decide),
   modernity_bounds.2.1 [wCsv] wS (by decide),
   modernity_bounds.2.2.1 wCsv (by decide),
   modernity_bounds.2.2.2 true requiredClusterCols knnDraw knnRows knnOutVal crW rfl (by decide)⟩

/-- C8 counterexample: airline `X` appears in the features output with
`fleet_size = 1`, yet two of its input rows survive the region/entry_year
drop as the spec words it — the second row is dropped for its missing
country, which the claim does not account for. -/
theorem fleet_size_cex :
    ((featuresMain true [c8row1, c8row2]).map (fun f => f.airline_name)) = ["X"] ∧
    ((featuresMain true [c8row1, c8row2]).map (fun f => f.fleet_size)) = [1] ∧
    ([c8row1, c8row2].countP
      (fun r => survivesRegionEntryB r && (r.airline_name == some "X"))) = 2 := by
  exact ⟨by decide, by decide, by decide⟩

/-- C8 amended, applied to the concrete two-row input. -/
theorem fleet_size_counts_w :
    c8f.fleet_size = [c8row1, c8row2].countP
      (fun r => surviveB (trimRecord r) &&
        ((trimRecord r).airline_name == some c8f.airline_name)) :=
  fleet_size_counts true [c8row1, c8row2] c8f (by decide)

/-- C9 counterexample: two rows whose raw airline names differ ("A" and
" A") are aggregated into one feature row of fleet size 2 — grouping is
not by character-for-character equality. -/
theorem grouping_key_cex :
    (decide (c9row1.airline_name = c9row2.airline_name)) = false ∧
    (featuresMain true [c9row1, c9row2]).length = 1 ∧
    ((featuresMain true [c9row1, c9row2]).map (fun f => f.fleet_size)) = [2] := by
  exact ⟨by decide, by decide, by decide⟩

/-- C2 counterexample: in the `knnRows` run the Scaler draw is the real
standardization of the input matrix (conjuncts 1-8: column means
`(100, 0, 0, 0)` and variances `(0, 1, 0, 0)`, so sklearn's scales are
`(1, 1, 1, 1)`) and the `k = 4` fit uses 10 restarts (conjunct 9,
matching `n_init=10`); the training row `a2` is recorded in the
clusters table with `cluster_id = 0` and its standardized vector sits in
the persisted classifier's reference data with label 0, yet feeding that
exact vector back through the classifier predicts 1: only 2 of its 5
nearest training rows (itself and one neighbour) carry its own cluster,
the other 3 belong to the adjacent larger cluster. -/
theorem surrogate_roundtrip_cex :
    colMean (fun v => v.a) knnX = 100 ∧ colVar (fun v => v.a) knnX = 0 ∧
    colMean (fun v => v.b) knnX = 0 ∧ colVar (fun v => v.b) knnX = 1 ∧
    colMean (fun v => v.c) knnX = 0 ∧ colVar (fun v => v.c) knnX = 0 ∧
    colMean (fun v => v.d) knnX = 0 ∧ colVar (fun v => v.d) knnX = 0 ∧
    (knnDraw.inits 4).length = 10 ∧
    (outTable knnRun).getD 2 ⟨mkScored "" 0, 99, 0, 0⟩ =
      ⟨mkScored "a2" (-11/10), 0, 0, 0⟩ ∧
    ((knnDraw.scaleF (rawVec (mkScored "a2" (-11/10))), 0) ∈ outRefs knnRun) ∧
    knnPredict (outRefs knnRun) (knnDraw.scaleF (rawVec (mkScored "a2" (-11/10)))) = 1 := by
  exact ⟨by decide, by decide, by decide, by decide, by decide, by decide, by decide,
    by decide, by decide, by decide, by decide, by decide⟩

/-- C2 amended, applied to the training row `c1` of the `knnRows` run,
whose own cluster 2 does hold a strict plurality among its 5 nearest
training rows. -/
theorem surrogate_majority_w :
    knnPredict (outRefs knnRun) (knnDraw.scaleF (rawVec (mkScored "c1" (3/10)))) = 2 :=
  surrogate_majority (outRefs knnRun) (knnDraw.scaleF (rawVec (mkScored "c1" (3/10)))) 2
    (by decide) (by decide)

end
